import Mathlib

/-!
# Verification of the SSE probe (`test-sse.py`)

A shallow embedding of the single source file `test-sse.py`.  The script
issues one streaming HTTP GET and iterates the response body line by line.
We model the environment's behavior during one run (the *trace*): either an
exception is raised while issuing the request, or a response arrives, carrying
a status code, headers, a body, the timed sequence of lines the transport
delivers to `iter_lines`, and the way the stream terminates (server close at
some absolute time, or an exception raised during a read).

Times are rationals (absolute timestamps, as returned by `time.time()`).
`test_sse_endpoint` is translated statement by statement; every distinct
`return` site in the Python function becomes a distinct `ProbePath`
constructor, the printed output is modelled as an abstract list of
`OutputEvent`s (one per `print` that carries run-specific data), and the
returned boolean is the `success` field.
-/

namespace SSEProbe

/-- Kind of exception caught by the `try/except` arms of `test_sse_endpoint`:
`requests.exceptions.Timeout`, `requests.exceptions.ConnectionError`,
`KeyboardInterrupt`, and the catch-all `Exception`. -/
inductive ExcKind where
  | timeout
  | connError
  | interrupt
  | otherError
  deriving DecidableEq, Repr

/-- How the iteration over `response.iter_lines(...)` terminates after all
delivered lines have been consumed: either the server closes the stream (the
`for` loop ends normally at absolute time `t`), or an exception of kind `e`
is raised during a read. -/
inductive StreamEnd where
  | closed (t : ℚ)
  | exc (e : ExcKind)
  deriving DecidableEq, Repr

/-- The response observed by `requests.get`, together with the behavior of
its body stream during the run.  `startTime` is the value `time.time()`
returns at line 51 of the source; `lines` are the (absolute arrival time,
line text) pairs that `iter_lines` yields, in order. -/
structure Response where
  statusCode : ℕ
  headers : List (String × String)
  body : String
  startTime : ℚ
  lines : List (ℚ × String)
  streamEnd : StreamEnd
  deriving DecidableEq, Repr

/-- One run's environment trace: either an exception is raised by
`requests.get` itself (before any response object exists), or a response
arrives and behaves as described. -/
inductive Trace where
  | requestExc (e : ExcKind)
  | response (r : Response)
  deriving DecidableEq, Repr

/-- The HTTP request `test_sse_endpoint` passes to `requests.get`. -/
structure Request where
  url : String
  headers : List (String × String)
  stream : Bool
  timeoutSecs : ℚ
  deriving DecidableEq, Repr

/-- The request built at lines 13 and 20-29 of the source: URL
`{url}/events?username={username}`, SSE headers, `stream=True`,
`timeout=60`. -/
def requestOf (url username : String) : Request :=
  { url := url ++ "/events?username=" ++ username
    headers := [("Accept", "text/event-stream"),
                ("Cache-Control", "no-cache"),
                ("Connection", "keep-alive")]
    stream := true
    timeoutSecs := 60 }

/-- Which `return` statement of `test_sse_endpoint` ended the run. -/
inductive ProbePath where
  | statusRejected    -- line 41: `return False` after a non-200 status
  | noEventsAbort     -- line 70: `return False` from the in-loop 5-second check
  | quickCloseFail    -- line 80: `return False`, stream closed in under 1 s
  | closedCount       -- line 82: `return event_count > 0`
  | timeoutSuccess    -- line 86: `return True` on `Timeout`
  | connErrorFail     -- line 89: `return False` on `ConnectionError`
  | interruptSuccess  -- line 92: `return True` on `KeyboardInterrupt`
  | unexpectedFail    -- line 97: `return False` on any other exception
  deriving DecidableEq, Repr

/-- The run-specific console output of the probe, one constructor per `print`
site that carries data from the run (banner/separator prints are omitted). -/
inductive OutputEvent where
  | connectionEstablished (status : ℕ)       -- lines 31-32
  | statusError (status : ℕ) (body : String)  -- lines 39-40
  | contentTypeWarning (ct : String)          -- line 46
  | sseLine (elapsed sinceLast : ℚ) (line : String)  -- line 64
  | noEventsMsg (elapsed : ℚ)                 -- lines 68-69
  | connectionClosed (elapsed : ℚ) (count : ℕ)  -- lines 75-76
  | quickCloseWarn                            -- line 79
  | timeoutMsg                                -- line 85
  | connErrorMsg                              -- line 88
  | interruptMsg                              -- line 91
  | unexpectedMsg                             -- line 94
  deriving DecidableEq, Repr

/-- `requests` stores headers in a case-insensitive dict;
`response.headers.get('Content-Type', '')` therefore matches the key up to
ASCII case and falls back to the empty string. -/
def headerGet (hs : List (String × String)) (key : String) : String :=
  ((hs.find? fun p => p.1.toLower == key.toLower).map Prod.snd).getD ""

/-- Does `pat` occur as a contiguous sublist of `s`? -/
def listContains (pat : List Char) : List Char → Bool
  | [] => pat.isEmpty
  | c :: rest => pat.isPrefixOf (c :: rest) || listContains pat rest

/-- Python's `pat in s` substring test on strings. -/
def containsSubstring (s pat : String) : Bool :=
  listContains pat.toList s.toList

/-- Result of the `for line in response.iter_lines(...)` loop (lines 56-70):
either the 5-second zero-event check returned `False` from inside the loop,
or the loop consumed every delivered line and fell through. Both carry the
final values of `event_count` and `last_event_time`. -/
inductive LoopExit where
  | earlyFail (elapsed : ℚ) (eventCount : ℕ) (lastEventTime : ℚ)
  | finished (eventCount : ℕ) (lastEventTime : ℚ)
  deriving DecidableEq, Repr

/-- Lines 56-70 of the source, as a recursion over the delivered lines.
For each line: compute `elapsed` and `since_last`; if the line is non-empty,
increment `event_count`, set `last_event_time`, and print the annotated line;
then run the staleness check `elapsed > 5 and event_count == 0`. Returns the
emitted output together with the loop exit. -/
def readLoop (startTime : ℚ) :
    List (ℚ × String) → ℕ → ℚ → List OutputEvent × LoopExit
  | [], eventCount, lastEventTime => ([], .finished eventCount lastEventTime)
  | (t, line) :: rest, eventCount, lastEventTime =>
    let elapsed := t - startTime
    let sinceLast := t - lastEventTime
    let eventCount' := if line ≠ "" then eventCount + 1 else eventCount
    let lastEventTime' := if line ≠ "" then t else lastEventTime
    let out := if line ≠ "" then [OutputEvent.sseLine elapsed sinceLast line] else []
    if elapsed > 5 ∧ eventCount' = 0 then
      (out ++ [OutputEvent.noEventsMsg elapsed], .earlyFail elapsed eventCount' lastEventTime')
    else
      let (outRest, res) := readLoop startTime rest eventCount' lastEventTime'
      (out ++ outRest, res)

/-- Everything observable about one run of `test_sse_endpoint`: the request
it issued, the boolean it returned, which `return` site ended it, the final
value of `event_count` (0 on paths reached before the counter exists), and
the data-carrying console output in order. -/
structure ProbeRun where
  request : Request
  success : Bool
  path : ProbePath
  eventCount : ℕ
  output : List OutputEvent
  deriving DecidableEq, Repr

/-- The four `except` arms of `test_sse_endpoint` (lines 84-97). -/
def excRun (req : Request) (e : ExcKind) : ProbeRun :=
  match e with
  | .timeout =>
      { request := req, success := true, path := .timeoutSuccess,
        eventCount := 0, output := [.timeoutMsg] }
  | .connError =>
      { request := req, success := false, path := .connErrorFail,
        eventCount := 0, output := [.connErrorMsg] }
  | .interrupt =>
      { request := req, success := true, path := .interruptSuccess,
        eventCount := 0, output := [.interruptMsg] }
  | .otherError =>
      { request := req, success := false, path := .unexpectedFail,
        eventCount := 0, output := [.unexpectedMsg] }

/-- `test_sse_endpoint(url, username)` under the environment trace `trace`:
a direct translation of lines 11-97 of the source. -/
def test_sse_endpoint (url username : String) (trace : Trace) : ProbeRun :=
  let req := requestOf url username
  match trace with
  | .requestExc e => excRun req e
  | .response r =>
    let outHead := [OutputEvent.connectionEstablished r.statusCode]
    if r.statusCode ≠ 200 then
      { request := req, success := false, path := .statusRejected,
        eventCount := 0,
        output := outHead ++ [.statusError r.statusCode r.body] }
    else
      let contentType := headerGet r.headers "Content-Type"
      let outCT :=
        if containsSubstring contentType "text/event-stream" then []
        else [OutputEvent.contentTypeWarning contentType]
      match readLoop r.startTime r.lines 0 r.startTime with
      | (outLoop, .earlyFail _ eventCount _) =>
          { request := req, success := false, path := .noEventsAbort,
            eventCount := eventCount,
            output := outHead ++ outCT ++ outLoop }
      | (outLoop, .finished eventCount _) =>
        match r.streamEnd with
        | .closed tClose =>
          let elapsed := tClose - r.startTime
          if elapsed < 1 then
            { request := req, success := false, path := .quickCloseFail,
              eventCount := eventCount,
              output := outHead ++ outCT ++ outLoop ++
                [.connectionClosed elapsed eventCount, .quickCloseWarn] }
          else
            { request := req, success := decide (eventCount > 0), path := .closedCount,
              eventCount := eventCount,
              output := outHead ++ outCT ++ outLoop ++
                [.connectionClosed elapsed eventCount] }
        | .exc e =>
          let base := excRun req e
          { base with
            eventCount := eventCount,
            output := outHead ++ outCT ++ outLoop ++ base.output }

/-- `server_url` as chosen by `main` (lines 100-103): `sys.argv[1]` when
present, else the default. -/
def serverUrlOf (sysArgv : List String) : String :=
  match sysArgv with
  | _ :: u :: _ => u
  | _ => "http://localhost:3000"

/-- `username` as chosen by `main` (lines 105-108): `sys.argv[2]` when
present, else the default. -/
def usernameOf (sysArgv : List String) : String :=
  match sysArgv with
  | _ :: _ :: n :: _ => n
  | _ => "test-user"

/-- The whole run of `main` (lines 99-125): pick the arguments, run the
probe against the trace, and map the returned boolean to the process exit
code (`sys.exit(0)` / `sys.exit(1)`). -/
def mainRun (sysArgv : List String) (trace : Trace) : ProbeRun :=
  test_sse_endpoint (serverUrlOf sysArgv) (usernameOf sysArgv) trace

/-- The process exit code produced by `main`. -/
def mainExit (sysArgv : List String) (trace : Trace) : ℕ :=
  if (mainRun sysArgv trace).success then 0 else 1

/-! ## Specification-side descriptions used by the claims -/

/-- The time carried by `last_event_time` after a list of lines has been
processed: the arrival time of the most recent non-empty line, or the
default (the loop's start value) if none arrived. -/
def lastEventTimeOf (dflt : ℚ) : List (ℚ × String) → ℚ
  | [] => dflt
  | (t, line) :: rest =>
    if line ≠ "" then lastEventTimeOf t rest else lastEventTimeOf dflt rest

/-- The console lines the loop is expected to print: one annotated entry per
non-empty line, carrying time since stream start and time since the previous
non-empty line (or start), with the line text verbatim; nothing for blank
lines. -/
def annotateLines (startTime : ℚ) : List (ℚ × String) → ℚ → List OutputEvent
  | [], _ => []
  | (t, line) :: rest, lastEventTime =>
    if line ≠ "" then
      OutputEvent.sseLine (t - startTime) (t - lastEventTime) line ::
        annotateLines startTime rest t
    else
      annotateLines startTime rest lastEventTime

/-- Does the read loop consume every delivered line (no in-loop `return`)? -/
def loopFinishes (r : Response) : Bool :=
  match (readLoop r.startTime r.lines 0 r.startTime).2 with
  | .finished _ _ => true
  | .earlyFail _ _ _ => false

/-- All waiting gaps of a run are at most `limit`: from `prev` to the first
arrival, between consecutive arrivals, and from the last arrival to `tEnd`.
A trace whose gaps are within the transport's read timeout never triggers
that timeout. -/
def gapsWithin (limit : ℚ) : ℚ → List ℚ → ℚ → Prop
  | prev, [], tEnd => tEnd - prev ≤ limit
  | prev, t :: rest, tEnd => t - prev ≤ limit ∧ gapsWithin limit t rest tEnd

/-! ## Sample runs used by the witnesses and counterexamples -/

/-- A healthy run: status 200, one event two seconds in, server close at
three seconds. -/
def closedWithEvent : Response :=
  { statusCode := 200, headers := [("Content-Type", "text/event-stream")],
    body := "", startTime := 0, lines := [(2, "data: hello")],
    streamEnd := .closed 3 }

/-- A rejected run: status 404 with an arbitrary body. -/
def rejected404 : Response :=
  { statusCode := 404, headers := [("Content-Type", "text/html")],
    body := "Not Found", startTime := 0, lines := [(2, "data: hello")],
    streamEnd := .closed 3 }

/-- A 200 response that delivers no lines and holds the connection silently
until the transport read-timeout fires. -/
def silentUntilTimeout : Response :=
  { statusCode := 200, headers := [("Content-Type", "text/event-stream")],
    body := "", startTime := 0, lines := [], streamEnd := .exc .timeout }

/-- A 200 response interrupted by the user after one event arrived. -/
def interruptedWhileStreaming : Response :=
  { statusCode := 200, headers := [("Content-Type", "text/event-stream")],
    body := "", startTime := 0, lines := [(2, "data: hello")],
    streamEnd := .exc .interrupt }

/-- A 200 response interrupted by the user before any line arrived. -/
def interruptedBeforeEvents : Response :=
  { statusCode := 200, headers := [("Content-Type", "text/event-stream")],
    body := "", startTime := 0, lines := [], streamEnd := .exc .interrupt }

/-- A 200 response whose only delivered line is a blank keep-alive arriving
six seconds in, after which the server closes. -/
def lateBlankLine : Response :=
  { statusCode := 200, headers := [("Content-Type", "text/event-stream")],
    body := "", startTime := 0, lines := [(6, "")], streamEnd := .closed 6 }

/-- A 200 response that streams an event but labels itself JSON. -/
def wrongContentType : Response :=
  { statusCode := 200, headers := [("Content-Type", "application/json")],
    body := "", startTime := 0, lines := [(2, "data: hello")],
    streamEnd := .closed 3 }

/-- A 200 response whose events arrive 59 seconds apart: every waiting gap
stays below the 60-second read timeout, yet the stream only closes 118
seconds after the request started. -/
def slowDrip : Response :=
  { statusCode := 200, headers := [("Content-Type", "text/event-stream")],
    body := "", startTime := 0,
    lines := [(59, "data: tick"), (118, "data: tick")],
    streamEnd := .closed 118 }

/-! ## Helper lemmas -/

theorem mainExit_eq_zero (sysArgv : List String) (trace : Trace) :
    mainExit sysArgv trace = 0 ↔ (mainRun sysArgv trace).success = true := by
  unfold mainExit
  split <;> simp_all

theorem mainExit_eq_one (sysArgv : List String) (trace : Trace) :
    mainExit sysArgv trace = 1 ↔ (mainRun sysArgv trace).success = false := by
  unfold mainExit
  split <;> simp_all

/-- The in-loop `return False` only fires with a zero event counter: its
guard demands `event_count == 0` after the update. -/
theorem readLoop_earlyFail_zero (startTime : ℚ) :
    ∀ (lines : List (ℚ × String)) (c0 : ℕ) (lt0 : ℚ) (out : List OutputEvent)
      (e : ℚ) (c : ℕ) (lt : ℚ),
      readLoop startTime lines c0 lt0 = (out, .earlyFail e c lt) → c = 0 := by
  intro lines
  induction lines with
  | nil =>
    intro c0 lt0 out e c lt h
    simp [readLoop] at h
  | cons p rest ih =>
    intro c0 lt0 out e c lt h
    obtain ⟨t, line⟩ := p
    simp only [readLoop] at h
    split at h <;> split at h
    · rename_i hg
      exact absurd hg.2 (Nat.succ_ne_zero c0)
    · simp only [Prod.mk.injEq] at h
      exact ih _ _ _ _ _ _ (by rw [← h.2])
    · rename_i hg
      simp only [Prod.mk.injEq, LoopExit.earlyFail.injEq] at h
      obtain ⟨-, -, hc, -⟩ := h
      exact hc ▸ hg.2
    · simp only [Prod.mk.injEq] at h
      exact ih _ _ _ _ _ _ (by rw [← h.2])

/-- When the loop consumes every delivered line, the final state is
determined: `event_count` gains one per non-empty line, `last_event_time` is
the arrival time of the most recent non-empty line (default: its initial
value), and the loop's output is exactly the annotated non-empty lines. -/
theorem readLoop_finished_spec (startTime : ℚ) :
    ∀ (lines : List (ℚ × String)) (c0 : ℕ) (lt0 : ℚ) (out : List OutputEvent)
      (c : ℕ) (lt : ℚ),
      readLoop startTime lines c0 lt0 = (out, .finished c lt) →
      c = c0 + (lines.filter fun p => decide (p.2 ≠ "")).length ∧
      lt = lastEventTimeOf lt0 lines ∧
      out = annotateLines startTime lines lt0 := by
  intro lines
  induction lines with
  | nil =>
    intro c0 lt0 out c lt h
    simp only [readLoop, Prod.mk.injEq, LoopExit.finished.injEq] at h
    obtain ⟨h1, h2, h3⟩ := h
    subst h1; subst h2; subst h3
    simp [lastEventTimeOf, annotateLines]
  | cons p rest ih =>
    intro c0 lt0 out c lt h
    obtain ⟨t, line⟩ := p
    simp only [readLoop] at h
    split at h <;> split at h
    · simp at h
    · rename_i hline hg
      simp only [Prod.mk.injEq] at h
      obtain ⟨hc, hlt, hout⟩ := ih _ _ _ _ _ (by rw [← h.2])
      refine ⟨?_, ?_, ?_⟩
      · rw [hc]
        simp [List.filter_cons, hline]
        omega
      · rw [hlt]
        simp [lastEventTimeOf, hline]
      · rw [← h.1, hout]
        simp [annotateLines, hline]
    · simp at h
    · rename_i hline hg
      simp only [Prod.mk.injEq] at h
      obtain ⟨hc, hlt, hout⟩ := ih _ _ _ _ _ (by rw [← h.2])
      refine ⟨?_, ?_, ?_⟩
      · rw [hc]
        simp [List.filter_cons, hline]
      · rw [hlt]
        simp [lastEventTimeOf, hline]
      · rw [← h.1, hout]
        simp [annotateLines, hline]

/-! ## Claims -/

/-- C5: for every response whose status code is not 200, the probe reports
failure and stops without entering the line-read loop — its whole output is
the connection banner followed by the status error, so no `sseLine` entry is
ever printed — and the process exits with code 1, regardless of the response
body, the delivered lines, or how the stream would have ended. -/
theorem C5_non200_rejected (sysArgv : List String) (r : Response)
    (h : r.statusCode ≠ 200) :
    (mainRun sysArgv (.response r)).success = false ∧
    (mainRun sysArgv (.response r)).path = ProbePath.statusRejected ∧
    (mainRun sysArgv (.response r)).output =
      [OutputEvent.connectionEstablished r.statusCode,
       OutputEvent.statusError r.statusCode r.body] ∧
    mainExit sysArgv (.response r) = 1 := by
  simp [mainRun, mainExit, test_sse_endpoint, h]

/-- C5 witness: a 404 response is rejected with exit code 1. -/
theorem C5_non200_rejected_witness :
    (mainRun ["test-sse.py"] (.response rejected404)).success = false ∧
    (mainRun ["test-sse.py"] (.response rejected404)).path = ProbePath.statusRejected ∧
    (mainRun ["test-sse.py"] (.response rejected404)).output =
      [OutputEvent.connectionEstablished rejected404.statusCode,
       OutputEvent.statusError rejected404.statusCode rejected404.body] ∧
    mainExit ["test-sse.py"] (.response rejected404) = 1 :=
  C5_non200_rejected ["test-sse.py"] rejected404 (by decide)

/-- C1: for every run in which the stream ends by server close at absolute
time `tClose`, the probe succeeds (and the process exits 0) exactly when at
least one second elapsed between the request start and the close, and at
least one event was received; in every other case it reports failure. -/
theorem C1_closed_stream_verdict (sysArgv : List String) (r : Response)
    (tClose : ℚ) (hEnd : r.streamEnd = .closed tClose) :
    ((mainRun sysArgv (.response r)).success = true ↔
      (1 ≤ tClose - r.startTime ∧ 0 < (mainRun sysArgv (.response r)).eventCount)) ∧
    (mainExit sysArgv (.response r) = 0 ↔
      (1 ≤ tClose - r.startTime ∧ 0 < (mainRun sysArgv (.response r)).eventCount)) := by
  suffices hS : (mainRun sysArgv (.response r)).success = true ↔
      (1 ≤ tClose - r.startTime ∧ 0 < (mainRun sysArgv (.response r)).eventCount) by
    exact ⟨hS, by rw [mainExit_eq_zero]; exact hS⟩
  by_cases h200 : r.statusCode = 200
  · simp only [mainRun, test_sse_endpoint, h200]
    rcases hl : readLoop r.startTime r.lines 0 r.startTime with ⟨outL, ex⟩
    cases ex with
    | earlyFail e c lt =>
      have hc : c = 0 := readLoop_earlyFail_zero r.startTime r.lines 0 r.startTime outL e c lt hl
      subst hc
      simp [hl]
    | finished c lt =>
      rw [hEnd]
      by_cases hq : tClose - r.startTime < 1
      · simp [hl, hq, not_le.2 hq]
      · simp [hl, hq, not_lt.1 hq]
  · simp [mainRun, test_sse_endpoint, h200]

/-- C1 witness: one event at two seconds, close at three seconds, success. -/
theorem C1_closed_stream_verdict_witness :
    ((mainRun ["test-sse.py"] (.response closedWithEvent)).success = true ↔
      (1 ≤ (3 : ℚ) - closedWithEvent.startTime ∧
        0 < (mainRun ["test-sse.py"] (.response closedWithEvent)).eventCount)) ∧
    (mainExit ["test-sse.py"] (.response closedWithEvent) = 0 ↔
      (1 ≤ (3 : ℚ) - closedWithEvent.startTime ∧
        0 < (mainRun ["test-sse.py"] (.response closedWithEvent)).eventCount)) :=
  C1_closed_stream_verdict ["test-sse.py"] closedWithEvent 3 rfl

/-- C3: a transport-level timeout — whether raised by `requests.get` itself
or during a read once the delivered lines were consumed — makes the probe
report success and the process exit with code 0. -/
theorem C3_timeout_is_success (sysArgv : List String) (r : Response)
    (h200 : r.statusCode = 200) (hEnd : r.streamEnd = .exc .timeout)
    (hFin : loopFinishes r = true) :
    (mainRun sysArgv (.requestExc .timeout)).success = true ∧
    mainExit sysArgv (.requestExc .timeout) = 0 ∧
    (mainRun sysArgv (.response r)).success = true ∧
    (mainRun sysArgv (.response r)).path = ProbePath.timeoutSuccess ∧
    mainExit sysArgv (.response r) = 0 := by
  have hresp : (mainRun sysArgv (.response r)).success = true ∧
      (mainRun sysArgv (.response r)).path = ProbePath.timeoutSuccess := by
    unfold loopFinishes at hFin
    simp only [mainRun, test_sse_endpoint, h200]
    rcases hl : readLoop r.startTime r.lines 0 r.startTime with ⟨outL, ex⟩
    rw [hl] at hFin
    cases ex with
    | earlyFail e c lt => simp at hFin
    | finished c lt =>
      rw [hEnd]
      simp [excRun]
  exact ⟨by simp [mainRun, test_sse_endpoint, excRun],
         by simp [mainExit, mainRun, test_sse_endpoint, excRun],
         hresp.1, hresp.2, by rw [mainExit_eq_zero]; exact hresp.1⟩

/-- C3 witness: a silent connection that ends in the 60-second transport
timeout is reported as success with exit code 0. -/
theorem C3_timeout_is_success_witness :
    (mainRun ["test-sse.py"] (.requestExc .timeout)).success = true ∧
    mainExit ["test-sse.py"] (.requestExc .timeout) = 0 ∧
    (mainRun ["test-sse.py"] (.response silentUntilTimeout)).success = true ∧
    (mainRun ["test-sse.py"] (.response silentUntilTimeout)).path = ProbePath.timeoutSuccess ∧
    mainExit ["test-sse.py"] (.response silentUntilTimeout) = 0 :=
  C3_timeout_is_success ["test-sse.py"] silentUntilTimeout rfl rfl rfl

/-- C4: a user interrupt raised while the probe is inside the read loop
(after the delivered lines were consumed, the loop not having aborted) makes
the probe report success and the process exit with code 0. -/
theorem C4_interrupt_while_streaming (sysArgv : List String) (r : Response)
    (h200 : r.statusCode = 200) (hEnd : r.streamEnd = .exc .interrupt)
    (hFin : loopFinishes r = true) :
    (mainRun sysArgv (.response r)).success = true ∧
    (mainRun sysArgv (.response r)).path = ProbePath.interruptSuccess ∧
    mainExit sysArgv (.response r) = 0 := by
  have hresp : (mainRun sysArgv (.response r)).success = true ∧
      (mainRun sysArgv (.response r)).path = ProbePath.interruptSuccess := by
    unfold loopFinishes at hFin
    simp only [mainRun, test_sse_endpoint, h200]
    rcases hl : readLoop r.startTime r.lines 0 r.startTime with ⟨outL, ex⟩
    rw [hl] at hFin
    cases ex with
    | earlyFail e c lt => simp at hFin
    | finished c lt =>
      rw [hEnd]
      simp [excRun]
  exact ⟨hresp.1, hresp.2, by rw [mainExit_eq_zero]; exact hresp.1⟩

/-- C4 witness: interrupt after one event was received, success and exit 0. -/
theorem C4_interrupt_while_streaming_witness :
    (mainRun ["test-sse.py"] (.response interruptedWhileStreaming)).success = true ∧
    (mainRun ["test-sse.py"] (.response interruptedWhileStreaming)).path
      = ProbePath.interruptSuccess ∧
    mainExit ["test-sse.py"] (.response interruptedWhileStreaming) = 0 :=
  C4_interrupt_while_streaming ["test-sse.py"] interruptedWhileStreaming rfl rfl
    (by simp +decide [loopFinishes, readLoop])

/-- C10: a user interrupt is success no matter where it lands: raised during
`requests.get` itself (before any connection exists) or during the read loop
with zero lines delivered and the counter still at zero, the probe still
reports success and exits with code 0. -/
theorem C10_interrupt_unconditional (sysArgv : List String) (r : Response)
    (h200 : r.statusCode = 200) (hNoLines : r.lines = [])
    (hEnd : r.streamEnd = .exc .interrupt) :
    (mainRun sysArgv (.requestExc .interrupt)).success = true ∧
    mainExit sysArgv (.requestExc .interrupt) = 0 ∧
    (mainRun sysArgv (.response r)).success = true ∧
    (mainRun sysArgv (.response r)).eventCount = 0 ∧
    mainExit sysArgv (.response r) = 0 := by
  refine ⟨by simp [mainRun, test_sse_endpoint, excRun],
          by simp [mainExit, mainRun, test_sse_endpoint, excRun], ?_, ?_, ?_⟩ <;>
    simp [mainExit, mainRun, test_sse_endpoint, h200, hNoLines, hEnd, readLoop, excRun]

/-- C10 witness: interrupt before any event, success and exit 0. -/
theorem C10_interrupt_unconditional_witness :
    (mainRun ["test-sse.py"] (.requestExc .interrupt)).success = true ∧
    mainExit ["test-sse.py"] (.requestExc .interrupt) = 0 ∧
    (mainRun ["test-sse.py"] (.response interruptedBeforeEvents)).success = true ∧
    (mainRun ["test-sse.py"] (.response interruptedBeforeEvents)).eventCount = 0 ∧
    mainExit ["test-sse.py"] (.response interruptedBeforeEvents) = 0 :=
  C10_interrupt_unconditional ["test-sse.py"] interruptedBeforeEvents rfl rfl rfl

/-- C2 counterexample: a 200 response that delivers no lines and silently
holds the connection open is never aborted at the 5-second mark — the loop
body, which hosts the check, only runs when a line arrives.  The run blocks
until the transport read-timeout fires, ends on the timeout path, and is
reported as success with exit code 0, not failure with exit code 1. -/
theorem C2_counterexample_silent_hold :
    (mainRun ["test-sse.py"] (.response silentUntilTimeout)).path
      = ProbePath.timeoutSuccess ∧
    (mainRun ["test-sse.py"] (.response silentUntilTimeout)).path
      ≠ ProbePath.noEventsAbort ∧
    (mainRun ["test-sse.py"] (.response silentUntilTimeout)).success = true ∧
    mainExit ["test-sse.py"] (.response silentUntilTimeout) = 0 := by
  refine ⟨?_, ?_, ?_, ?_⟩ <;>
    simp +decide [mainExit, mainRun, test_sse_endpoint, silentUntilTimeout,
      readLoop, excRun, headerGet, containsSubstring, listContains]

/-- C2 amended: the 5-second zero-event check runs only when the stream
delivers a line.  If the first delivered line is blank and arrives more than
5 seconds after start, the probe aborts, reports failure and exits 1; but a
connection that delivers no lines never triggers the abort — the probe
blocks until the stream terminates, and when that termination is the
transport timeout it reports success and exits 0. -/
theorem C2_amended_abort_needs_line (sysArgv : List String) (r : Response)
    (h200 : r.statusCode = 200) :
    (∀ t rest, r.lines = (t, "") :: rest → 5 < t - r.startTime →
      (mainRun sysArgv (.response r)).path = ProbePath.noEventsAbort ∧
      (mainRun sysArgv (.response r)).success = false ∧
      mainExit sysArgv (.response r) = 1) ∧
    (r.lines = [] →
      (mainRun sysArgv (.response r)).path ≠ ProbePath.noEventsAbort ∧
      (r.streamEnd = .exc .timeout → mainExit sysArgv (.response r) = 0)) := by
  constructor
  · intro t rest hl ht
    refine ⟨?_, ?_, ?_⟩ <;>
      simp [mainExit, mainRun, test_sse_endpoint, h200, hl, readLoop, ht]
  · intro hl
    constructor
    · simp only [mainRun, test_sse_endpoint, h200, hl, readLoop]
      rcases hse : r.streamEnd with tC | e
      · simp only [hse]
        by_cases hq : tC - r.startTime < 1 <;> simp [hq]
      · simp only [hse]
        cases e <;> simp [excRun]
    · intro hEnd
      simp [mainExit, mainRun, test_sse_endpoint, h200, hl, readLoop, hEnd, excRun]

/-- C2 amended, applied: a blank keep-alive line six seconds in, with zero
events so far, does trigger the abort with failure and exit code 1. -/
theorem C2_amended_abort_needs_line_witness :
    (mainRun ["test-sse.py"] (.response lateBlankLine)).path
      = ProbePath.noEventsAbort ∧
    (mainRun ["test-sse.py"] (.response lateBlankLine)).success = false ∧
    mainExit ["test-sse.py"] (.response lateBlankLine) = 1 :=
  (C2_amended_abort_needs_line ["test-sse.py"] lateBlankLine rfl).1 6 [] rfl
    (by norm_num [lateBlankLine])

/-- C7: starting from the initial loop state (`event_count = 0`,
`last_event_time = start_time`), after the loop consumes any list of
delivered lines without aborting — in particular any prefix of a run's
stream, so this is an invariant throughout the loop — the counter equals the
number of non-empty lines consumed, `last_event_time` is the arrival time of
the most recent non-empty line (the start time if none), and the output is
exactly the non-empty lines, verbatim, each with its elapsed and since-last
annotations; blank lines are neither counted nor printed. -/
theorem C7_loop_invariant (startTime : ℚ) (lines : List (ℚ × String))
    (out : List OutputEvent) (c : ℕ) (lt : ℚ)
    (h : readLoop startTime lines 0 startTime = (out, .finished c lt)) :
    c = (lines.filter fun p => decide (p.2 ≠ "")).length ∧
    lt = lastEventTimeOf startTime lines ∧
    out = annotateLines startTime lines startTime := by
  have hspec := readLoop_finished_spec startTime lines 0 startTime out c lt h
  simpa using hspec

/-- C7 applied: one event at two seconds then a blank line; the counter is 1,
`last_event_time` is 2, and only the non-empty line is printed, annotated. -/
theorem C7_loop_invariant_witness :
    1 = ([((2 : ℚ), "data: hello"), ((3 : ℚ), "")].filter
          fun p => decide (p.2 ≠ "")).length ∧
    (2 : ℚ) = lastEventTimeOf 0 [((2 : ℚ), "data: hello"), ((3 : ℚ), "")] ∧
    [OutputEvent.sseLine 2 2 "data: hello"] =
      annotateLines 0 [((2 : ℚ), "data: hello"), ((3 : ℚ), "")] 0 :=
  C7_loop_invariant 0 [((2 : ℚ), "data: hello"), ((3 : ℚ), "")]
    [OutputEvent.sseLine 2 2 "data: hello"] 1 2
    (by simp +decide [readLoop, sub_zero])

/-- Varying only the response headers leaves the probe's verdict, exit path
and event count unchanged: the headers feed nothing but the content-type
warning. -/
theorem mainRun_headers_eq (sysArgv : List String) (r : Response)
    (hs2 : List (String × String)) :
    (mainRun sysArgv (.response { r with headers := hs2 })).success
      = (mainRun sysArgv (.response r)).success ∧
    (mainRun sysArgv (.response { r with headers := hs2 })).path
      = (mainRun sysArgv (.response r)).path ∧
    (mainRun sysArgv (.response { r with headers := hs2 })).eventCount
      = (mainRun sysArgv (.response r)).eventCount := by
  simp only [mainRun, test_sse_endpoint]
  by_cases h200 : r.statusCode = 200
  · simp only [h200]
    rcases hl : readLoop r.startTime r.lines 0 r.startTime with ⟨outL, ex⟩
    rcases ex with ⟨e, c, lt⟩ | ⟨c, lt⟩
    · simp [hl]
    · rcases hse : r.streamEnd with tC | e2
      · simp only [hl, hse]
        by_cases hq : tC - r.startTime < 1 <;> simp [hq]
      · simp only [hl, hse]
        cases e2 <;> simp [excRun]
  · simp [h200]

/-- C8: on a 200 response whose `Content-Type` does not contain
`text/event-stream`, the probe emits the warning but continues into the read
loop rather than failing — the run does not end on the rejection path, and
its verdict, exit path, event count and exit code are identical to the same
run with any other headers. -/
theorem C8_content_type_nonfatal (sysArgv : List String) (r : Response)
    (hs2 : List (String × String)) (h200 : r.statusCode = 200) :
    (containsSubstring (headerGet r.headers "Content-Type") "text/event-stream"
        = false →
      OutputEvent.contentTypeWarning (headerGet r.headers "Content-Type") ∈
        (mainRun sysArgv (.response r)).output) ∧
    (mainRun sysArgv (.response r)).path ≠ ProbePath.statusRejected ∧
    (mainRun sysArgv (.response r)).success
      = (mainRun sysArgv (.response { r with headers := hs2 })).success ∧
    (mainRun sysArgv (.response r)).path
      = (mainRun sysArgv (.response { r with headers := hs2 })).path ∧
    (mainRun sysArgv (.response r)).eventCount
      = (mainRun sysArgv (.response { r with headers := hs2 })).eventCount ∧
    mainExit sysArgv (.response r)
      = mainExit sysArgv (.response { r with headers := hs2 }) := by
  obtain ⟨hS, hP, hC⟩ := mainRun_headers_eq sysArgv r hs2
  refine ⟨?_, ?_, hS.symm, hP.symm, hC.symm, ?_⟩
  · intro hct
    simp only [mainRun, test_sse_endpoint, h200]
    rcases hl : readLoop r.startTime r.lines 0 r.startTime with ⟨outL, ex⟩
    rcases ex with ⟨e, c, lt⟩ | ⟨c, lt⟩
    · simp [hl, hct]
    · rcases hse : r.streamEnd with tC | e2
      · simp only [hl, hse]
        by_cases hq : tC - r.startTime < 1 <;> simp [hq, hct]
      · simp only [hl, hse]
        cases e2 <;> simp [excRun, hct]
  · simp only [mainRun, test_sse_endpoint, h200]
    rcases hl : readLoop r.startTime r.lines 0 r.startTime with ⟨outL, ex⟩
    rcases ex with ⟨e, c, lt⟩ | ⟨c, lt⟩
    · simp [hl]
    · rcases hse : r.streamEnd with tC | e2
      · simp only [hl, hse]
        by_cases hq : tC - r.startTime < 1 <;> simp [hq]
      · simp only [hl, hse]
        cases e2 <;> simp [excRun]
  · simp [mainExit, hS]

/-- C8 applied: a JSON content type gets the warning, avoids the rejection
path, and changes nothing against the same run labelled as an event
stream. -/
theorem C8_content_type_nonfatal_witness :
    (containsSubstring (headerGet wrongContentType.headers "Content-Type")
        "text/event-stream" = false →
      OutputEvent.contentTypeWarning
          (headerGet wrongContentType.headers "Content-Type") ∈
        (mainRun ["test-sse.py"] (.response wrongContentType)).output) ∧
    (mainRun ["test-sse.py"] (.response wrongContentType)).path
      ≠ ProbePath.statusRejected ∧
    (mainRun ["test-sse.py"] (.response wrongContentType)).success
      = (mainRun ["test-sse.py"] (.response
          { wrongContentType with
            headers := [("Content-Type", "text/event-stream")] })).success ∧
    (mainRun ["test-sse.py"] (.response wrongContentType)).path
      = (mainRun ["test-sse.py"] (.response
          { wrongContentType with
            headers := [("Content-Type", "text/event-stream")] })).path ∧
    (mainRun ["test-sse.py"] (.response wrongContentType)).eventCount
      = (mainRun ["test-sse.py"] (.response
          { wrongContentType with
            headers := [("Content-Type", "text/event-stream")] })).eventCount ∧
    mainExit ["test-sse.py"] (.response wrongContentType)
      = mainExit ["test-sse.py"] (.response
          { wrongContentType with
            headers := [("Content-Type", "text/event-stream")] }) :=
  C8_content_type_nonfatal ["test-sse.py"] wrongContentType
    [("Content-Type", "text/event-stream")] rfl

/-- Every exit path hands back the request that was issued. -/
theorem request_issued (url username : String) (trace : Trace) :
    (test_sse_endpoint url username trace).request = requestOf url username := by
  rcases trace with e | r
  · cases e <;> rfl
  · by_cases h200 : r.statusCode = 200
    · simp only [test_sse_endpoint, h200]
      rcases hl : readLoop r.startTime r.lines 0 r.startTime with ⟨outL, ex⟩
      rcases ex with ⟨e, c, lt⟩ | ⟨c, lt⟩
      · simp [hl]
      · rcases hse : r.streamEnd with tC | e2
        · simp only [hl, hse]
          by_cases hq : tC - r.startTime < 1 <;> simp [hq]
        · simp only [hl, hse]
          cases e2 <;> simp [excRun]
    · simp [test_sse_endpoint, h200]

/-- C9: every invocation issues the one GET request to
`{base_url}/events?username={username}` with the SSE headers, streaming
enabled and the 60-second timeout parameter, where the base URL defaults to
`http://localhost:3000` when positional argument 1 is absent and the
username defaults to `test-user` when positional argument 2 is absent. -/
theorem C9_request_and_defaults (sysArgv : List String) (trace : Trace) :
    (mainRun sysArgv trace).request =
      { url := serverUrlOf sysArgv ++ "/events?username=" ++ usernameOf sysArgv,
        headers := [("Accept", "text/event-stream"),
                    ("Cache-Control", "no-cache"),
                    ("Connection", "keep-alive")],
        stream := true,
        timeoutSecs := 60 } ∧
    (sysArgv.length ≤ 1 → serverUrlOf sysArgv = "http://localhost:3000") ∧
    (sysArgv.length ≤ 2 → usernameOf sysArgv = "test-user") := by
  refine ⟨?_, ?_, ?_⟩
  · rw [mainRun, request_issued]
    rfl
  · intro hlen
    match sysArgv, hlen with
    | [], _ => rfl
    | [a], _ => rfl
    | a :: b :: rest, hlen => simp at hlen
  · intro hlen
    match sysArgv, hlen with
    | [], _ => rfl
    | [a], _ => rfl
    | [a, b], _ => rfl
    | a :: b :: c :: rest, hlen => simp at hlen

/-- C6 counterexample: a run every one of whose waiting gaps is at most 60
seconds — so the transport's read timeout, which is what `timeout=60`
configures, never fires — that terminates on the normal server-close path
only 118 seconds after the request started, i.e. the request and streaming
phase ran far longer than 60 seconds. -/
theorem C6_counterexample_slow_drip :
    gapsWithin 60 slowDrip.startTime (slowDrip.lines.map Prod.fst) 118 ∧
    slowDrip.streamEnd = .closed 118 ∧
    (mainRun ["test-sse.py"] (.response slowDrip)).path = ProbePath.closedCount ∧
    (mainRun ["test-sse.py"] (.response slowDrip)).success = true ∧
    mainExit ["test-sse.py"] (.response slowDrip) = 0 ∧
    ¬ (118 - slowDrip.startTime ≤ 60) := by
  refine ⟨by norm_num [gapsWithin, slowDrip], rfl, ?_, ?_, ?_, by norm_num [slowDrip]⟩ <;>
    simp +decide [mainExit, mainRun, test_sse_endpoint, slowDrip, readLoop,
      headerGet, containsSubstring, listContains, sub_zero]

/-- C6 amended: the probe passes `timeout=60` to the request, so 60 seconds
bounds each individual wait (connection setup and each read gap), not the
run as a whole: a stream whose data keeps arriving within the timeout can
keep the probe running arbitrarily longer than 60 seconds before it reaches
an exit path. -/
theorem C6_amended_timeout_bounds_reads (sysArgv : List String) (trace : Trace) :
    (∀ url username, (requestOf url username).timeoutSecs = 60) ∧
    (mainRun sysArgv trace).request.timeoutSecs = 60 ∧
    ∃ (r : Response) (tClose : ℚ),
      r.streamEnd = .closed tClose ∧
      gapsWithin 60 r.startTime (r.lines.map Prod.fst) tClose ∧
      (mainRun sysArgv (.response r)).path = ProbePath.closedCount ∧
      (mainRun sysArgv (.response r)).success = true ∧
      ¬ (tClose - r.startTime ≤ 60) := by
  refine ⟨fun url username => rfl, by rw [mainRun, request_issued]; rfl, slowDrip, 118,
    rfl, by norm_num [gapsWithin, slowDrip], ?_, ?_, by norm_num [slowDrip]⟩ <;>
    simp +decide [mainRun, test_sse_endpoint, slowDrip, readLoop,
      headerGet, containsSubstring, listContains, sub_zero]

end SSEProbe
